import Mathlib

/-!
Shallow embedding of `src/main.py` of maliffi/vector-database-pinecone.

The script provisions a Pinecone index (create-if-absent followed by a
readiness polling loop), embeds ten sentences with a fixed
sentence-transformer model, upserts the embedded records into a namespace,
runs one top-k similarity query and finally deletes the index.

The embedding below models:
  - the provider-visible index state as a list of created index specs;
  - the create-if-absent step (main.py lines 27-41);
  - the readiness wait loop (main.py lines 43-47) as a fuel-indexed run of
    the unbounded `while not ready: sleep(1)` loop, together with the trace
    of remote operations it performs;
  - the embedding loop (main.py lines 65-76) both with a total embedder and
    with a fallible one (a raised exception in Python becomes
    `Except.error`);
  - the upsert / query path.  Upsert create-or-replace semantics and the
    top-k nearest-neighbour search run inside the external Pinecone
    service; those two definitions are modelled from the spec and are
    marked as such in their doc comments.

Vector components are modelled as integers: no claim below depends on the
arithmetic of the embedding values beyond exact comparison of euclidean
distances, which `Int` carries faithfully.
-/

namespace VecDB

/-- A record to be ingested: `{"id": ..., "text": ...}` (main.py lines 52-63). -/
structure Record where
  id : String
  text : String
deriving DecidableEq, Repr

/-- An embedded record as built by the loop at main.py lines 65-76:
`{"id": ..., "values": embedding, "metadata": {"sentence": text}}`. -/
structure EmbeddedRecord where
  id : String
  values : List Int
  metadata : List (String × String)
deriving DecidableEq, Repr

/-- The declarative spec passed to `pc.create_index` (main.py lines 28-41). -/
structure IndexSpec where
  name : String
  dimension : Nat
  metric : String
deriving DecidableEq, Repr

/-- Provider-visible state: the list of indexes that exist (`pc.list_indexes`). -/
structure PCState where
  indexes : List IndexSpec
deriving DecidableEq, Repr

/-- Existence check, `pc.has_index` (main.py line 27). -/
def hasIndex (st : PCState) (n : String) : Bool :=
  st.indexes.any (fun s => s.name == n)

/-- Creation request, `pc.create_index` (main.py lines 28-41): the request
makes the named index exist on the provider side. -/
def createIndex (st : PCState) (spec : IndexSpec) : PCState :=
  ⟨st.indexes ++ [spec]⟩

/-- The create-if-absent step (main.py lines 27-41): request creation only
when `has_index` is false.  Returns the new provider state and whether a
creation request was issued. -/
def ensureCreate (st : PCState) (spec : IndexSpec) : PCState × Bool :=
  if hasIndex st spec.name then (st, false) else (createIndex st spec, true)

/-- Remote operations the script issues, for frame reasoning about the run. -/
inductive Op where
  | hasIndexQ (n : String)
  | create (n : String)
  | describe (n : String)
  | sleep
  | upsertOp (ns : String)
  | queryOp (ns : String)
  | deleteOp (n : String)
deriving DecidableEq, Repr

/-- Is this operation a creation request? -/
def isCreateOp : Op → Bool
  | Op.create _ => true
  | _ => false

/-- Is this operation a status read (`pc.describe_index`)? -/
def isDescribeOp : Op → Bool
  | Op.describe _ => true
  | _ => false

/-- Outcome of observing finitely many iterations of the wait loop: either
the loop exited because a describe reported ready, or it is still running. -/
inductive WaitOutcome where
  | gotReady
  | stillWaiting
deriving DecidableEq, Repr

/-- The readiness wait loop (main.py lines 43-47): while the describe call
does not report ready, sleep one interval and poll again.
Here `ready k` is the answer of the k-th describe call; `fuel` bounds how many
iterations we observe (the Python loop itself is unbounded).  Returns the
outcome together with the trace of remote operations performed. -/
def waitLoop (n : String) (ready : Nat → Bool) : Nat → Nat → WaitOutcome × List Op
  | _, 0 => (WaitOutcome.stillWaiting, [])
  | i, fuel + 1 =>
    if ready i then (WaitOutcome.gotReady, [Op.describe n])
    else
      let rest := waitLoop n ready (i + 1) fuel
      (rest.1, Op.describe n :: Op.sleep :: rest.2)

/-- The provisioning phase (main.py lines 27-47): create-if-absent, then the
readiness wait loop.  Returns the outcome and the full operation trace. -/
def provisionOps (st : PCState) (spec : IndexSpec) (ready : Nat → Bool)
    (fuel : Nat) : WaitOutcome × List Op :=
  let created := (ensureCreate st spec).2
  let w := waitLoop spec.name ready 0 fuel
  (w.1, Op.hasIndexQ spec.name :: ((if created then [Op.create spec.name] else []) ++ w.2))

/-- The operation trace of a whole run of `main` (main.py lines 27-130):
the upsert, the query and the final delete happen only after the wait loop
has observed ready. -/
def mainOps (st : PCState) (spec : IndexSpec) (ready : Nat → Bool)
    (fuel : Nat) (ns : String) : List Op :=
  let p := provisionOps st spec ready fuel
  match p.1 with
  | WaitOutcome.gotReady =>
      p.2 ++ [Op.upsertOp ns, Op.queryOp ns, Op.deleteOp spec.name]
  | WaitOutcome.stillWaiting => p.2

/-- Teardown, `pc.delete_index` (main.py line 130).  Modelled from the spec: the
delete implementation lives in the external Pinecone service, not in src/;
per the spec it removes the named resource and deleting an already-absent
resource is not an error (the modelled operation is total). -/
def deleteIndex (st : PCState) (n : String) : PCState :=
  ⟨st.indexes.filter (fun s => s.name != n)⟩

/-! ### The embed-and-upsert pipeline (main.py lines 65-81) -/

/-- One iteration of the embedding loop (main.py lines 67-75): embed the
text and attach the metadata `{"sentence": text}` built at line 72. -/
def embedRecord (embedder : String → List Int) (r : Record) : EmbeddedRecord :=
  ⟨r.id, embedder r.text, [("sentence", r.text)]⟩

/-- The embedding loop over the whole batch (main.py lines 65-76): one
embedded record per input record, in input order. -/
def embed (embedder : String → List Int) (records : List Record) :
    List EmbeddedRecord :=
  records.map (embedRecord embedder)

/-- The embedding loop with a fallible embedder: a raised exception in
`model.encode` (main.py line 69) aborts the loop and propagates unchanged,
which `Except.error` models.  Records before the failing one were embedded
into the local list only; nothing was submitted. -/
def embedE (embedder : String → Except String (List Int)) :
    List Record → Except String (List EmbeddedRecord)
  | [] => Except.ok []
  | r :: rs =>
    match embedder r.text with
    | Except.error e => Except.error e
    | Except.ok v =>
      match embedE embedder rs with
      | Except.error e => Except.error e
      | Except.ok tail => Except.ok (⟨r.id, v, [("sentence", r.text)]⟩ :: tail)

/-- Modelled from the spec: upsert semantics — create-or-replace keyed by id
within a namespace — are implemented by the external Pinecone service;
main.py line 81 only invokes `index.upsert`.  The namespace content is the
stored list with each batch record replacing any stored record of the same
id. -/
def upsertNS (stored batch : List EmbeddedRecord) : List EmbeddedRecord :=
  batch.foldl (fun acc r => acc.filter (fun s => s.id != r.id) ++ [r]) stored

/-- The ingest phase of `main` (main.py lines 65-81) as a state transformer
on the namespace content: first the whole embedding loop runs; only if it
completes is `index.upsert` called.  On an embedding failure the error
propagates and the stored state is untouched. -/
def runIngest (embedder : String → Except String (List Int))
    (records : List Record) (stored : List EmbeddedRecord) :
    Except String (List EmbeddedRecord) × List EmbeddedRecord :=
  match embedE embedder records with
  | Except.error e => (Except.error e, stored)
  | Except.ok vd => (Except.ok vd, upsertNS stored vd)

/-! ### The query path (main.py lines 90-95) -/

/-- One element of the matches field of a query result. -/
structure QueryMatch where
  id : String
  score : Int
  values : Option (List Int)
  metadata : Option (List (String × String))
deriving DecidableEq, Repr

/-- Squared euclidean distance between two vectors (the index metric is
"euclidean", main.py line 37). -/
def sqDist (u v : List Int) : Int :=
  ((u.zip v).map (fun p => (p.1 - p.2) * (p.1 - p.2))).sum

/-- Build the match entry for one stored record: its id, its distance score
to the query vector, and its values / metadata when inclusion is requested
(main.py line 95 passes include_values=True, include_metadata=True). -/
def toMatch (qv : List Int) (iV iM : Bool) (r : EmbeddedRecord) : QueryMatch :=
  ⟨r.id, sqDist r.values qv,
    if iV then some r.values else none,
    if iM then some r.metadata else none⟩

/-- Score order on matches: smaller euclidean distance is a better match. -/
def scoreLE (a b : QueryMatch) : Prop := a.score ≤ b.score

instance : DecidableRel scoreLE :=
  fun a b => inferInstanceAs (Decidable (a.score ≤ b.score))

instance : IsTotal QueryMatch scoreLE :=
  ⟨fun a b => Int.le_total a.score b.score⟩

instance : IsTrans QueryMatch scoreLE :=
  ⟨fun _ _ _ hab hbc => le_trans hab hbc⟩

/-- Modelled from the spec: the top-k nearest-neighbour search runs inside
the external Pinecone service; main.py line 95 only invokes `index.query`.
Per the spec (and the sample output recorded in the source comments at
main.py lines 98-103, whose scores increase down the match list), each
stored record is scored by the configured metric — euclidean distance here —
and the matches come back best first, i.e. by increasing distance, truncated
to the requested top_k. -/
def queryIndex (stored : List EmbeddedRecord) (qv : List Int) (topK : Nat)
    (iV iM : Bool) : List QueryMatch :=
  (List.insertionSort scoreLE (stored.map (toMatch qv iV iM))).take topK

/-! ### Helper lemmas -/

/-- After a creation request for a spec, the index of that name exists. -/
theorem hasIndex_createIndex (st : PCState) (spec : IndexSpec) :
    hasIndex (createIndex st spec) spec.name = true := by
  simp [hasIndex, createIndex, List.any_append]

/-- Every operation in the wait-loop trace is a describe of the polled index
or a sleep. -/
theorem waitLoop_ops (n : String) (ready : Nat → Bool) :
    ∀ fuel i op, op ∈ (waitLoop n ready i fuel).2 →
      op = Op.describe n ∨ op = Op.sleep := by
  intro fuel
  induction fuel with
  | zero => intro i op h; simp [waitLoop] at h
  | succ fuel ih =>
    intro i op h
    by_cases hr : ready i
    · simp [waitLoop, hr] at h
      exact Or.inl h
    · simp [waitLoop, hr] at h
      rcases h with h | h | h
      · exact Or.inl h
      · exact Or.inr h
      · exact ih (i + 1) op h

/-- The wait-loop trace contains no creation request. -/
theorem waitLoop_no_create (n : String) (ready : Nat → Bool) (fuel i : Nat) :
    ((waitLoop n ready i fuel).2).countP isCreateOp = 0 := by
  rw [List.countP_eq_zero]
  intro op hop
  rcases waitLoop_ops n ready fuel i op hop with h | h <;> simp [h, isCreateOp]

/-- A record of the namespace content after an upsert was stored before or
belongs to the upserted batch. -/
theorem mem_upsertNS (batch : List EmbeddedRecord) :
    ∀ stored x, x ∈ upsertNS stored batch → x ∈ stored ∨ x ∈ batch := by
  induction batch with
  | nil => intro stored x h; exact Or.inl h
  | cons r rs ih =>
    intro stored x h
    have h2 := ih (stored.filter (fun s => s.id != r.id) ++ [r]) x h
    rcases h2 with h2 | h2
    · rcases List.mem_append.1 h2 with h3 | h3
      · exact Or.inl (List.mem_filter.1 h3).1
      · simp at h3
        exact Or.inr (by simp [h3])
    · exact Or.inr (List.mem_cons_of_mem r h2)

/-- Every match returned by a query is the scored image of a stored record. -/
theorem mem_queryIndex (stored : List EmbeddedRecord) (qv : List Int)
    (topK : Nat) (iV iM : Bool) (m : QueryMatch)
    (h : m ∈ queryIndex stored qv topK iV iM) :
    ∃ er ∈ stored, m = toMatch qv iV iM er := by
  have h1 : m ∈ List.insertionSort scoreLE (stored.map (toMatch qv iV iM)) :=
    (List.take_sublist topK _).mem h
  have h2 : m ∈ stored.map (toMatch qv iV iM) := (List.mem_insertionSort scoreLE).1 h1
  rcases List.mem_map.1 h2 with ⟨er, her, hm⟩
  exact ⟨er, her, hm.symm⟩

/-! ### The claims -/

/-- C1, counterexample.  Take a provider behaviour that never reports ready
and read maxWait as a budget of 10 polls.  After 11 observed iterations the
loop of main.py lines 43-47 has polled 11 times — beyond the budget — and it
is still waiting: it has neither returned (no handle) nor failed (the loop
has no timeout outcome at all).  So the wait does not terminate within
maxWait with a ProvisioningTimeout. -/
theorem waitLoop_polls_past_any_bound :
    (waitLoop "example-index" (fun _ => false) 0 11).1 = WaitOutcome.stillWaiting ∧
    ((waitLoop "example-index" (fun _ => false) 0 11).2).countP isDescribeOp = 11 ∧
    10 < 11 := by
  refine ⟨by decide, by decide, by decide⟩

/-- C1, amended: if the provider never reports ready, the wait loop of
main.py lines 43-47 never exits and never returns a handle; the code has no
maxWait bound, so it keeps polling — one describe per observed iteration —
indefinitely, and it never raises a ProvisioningTimeout (it has no failure
outcome). -/
theorem waitLoop_never_ready_never_returns (n : String) (ready : Nat → Bool)
    (h : ∀ k, ready k = false) (fuel : Nat) : ∀ i,
    (waitLoop n ready i fuel).1 = WaitOutcome.stillWaiting ∧
    ((waitLoop n ready i fuel).2).countP isDescribeOp = fuel := by
  induction fuel with
  | zero => intro i; simp [waitLoop]
  | succ fuel ih =>
    intro i
    have hi := ih (i + 1)
    simp [waitLoop, h i, hi.1, hi.2, List.countP_cons, isDescribeOp]

/-- Witness for the amended C1 at a concrete never-ready behaviour. -/
theorem waitLoop_never_ready_never_returns_witness :
    (waitLoop "example-index" (fun _ => false) 0 3).1 = WaitOutcome.stillWaiting ∧
    ((waitLoop "example-index" (fun _ => false) 0 3).2).countP isDescribeOp = 3 :=
  waitLoop_never_ready_never_returns "example-index" (fun _ => false)
    (fun _ => rfl) 3 0

/-- C2, counterexample.  With the declared dimension 768 (main.py line 34)
and an embedder whose output has length 2, the ingest pipeline of main.py
lines 65-81 raises no failure before submission: the embedding loop
succeeds and the length-2 vector reaches the upsert call and the store
unmodified.  No dimension validation exists in the code. -/
theorem ingest_accepts_wrong_dimension :
    runIngest (fun _ => Except.ok [1, 2]) [⟨"r1", "hello"⟩] [] =
      (Except.ok [⟨"r1", [1, 2], [("sentence", "hello")]⟩],
       [⟨"r1", [1, 2], [("sentence", "hello")]⟩]) ∧
    (2 : Nat) ≠ 768 :=
  ⟨rfl, by decide⟩

/-- C2, amended: the code performs no dimension validation.  Every embedded
vector is exactly the embedder output for that record text — never
truncated, padded or otherwise modified — and in particular, whenever the
embedder always returns vectors of the declared dimension 768 (as the
sentence-transformer model of main.py line 11 does), every embedded record
satisfies the dimension invariant. -/
theorem embed_values_passthrough (embedder : String → List Int)
    (records : List Record) :
    (embed embedder records).map EmbeddedRecord.values =
      records.map (fun r => embedder r.text) ∧
    ((∀ t, (embedder t).length = 768) →
      ∀ er ∈ embed embedder records, er.values.length = 768) := by
  constructor
  · simp [embed, embedRecord]
  · intro hdim er her
    rcases List.mem_map.1 her with ⟨r, _, hr⟩
    rw [← hr]
    exact hdim r.text

/-- Witness for the amended C2 at a concrete 768-dimensional embedder. -/
theorem embed_values_passthrough_witness :
    (∀ t : String, ((fun _ : String => List.replicate 768 (0 : Int)) t).length = 768) ∧
    ∀ er ∈ embed (fun _ => List.replicate 768 (0 : Int)) [⟨"v1", "A"⟩],
      er.values.length = 768 :=
  ⟨fun _ => List.length_replicate 768 0,
   (embed_values_passthrough (fun _ => List.replicate 768 (0 : Int)) [⟨"v1", "A"⟩]).2
     (fun _ => List.length_replicate 768 0)⟩

/-- C3: provisioning is idempotent.  For every spec with positive dimension,
after one run of the create-if-absent step of main.py lines 27-41 the index
exists; a second run with the same spec returns the same provider state and
issues no creation request (so no duplicate-creation error can occur), and
in any run a creation request is issued exactly when the named index is
absent. -/
theorem ensureCreate_idempotent (st : PCState) (spec : IndexSpec)
    (_hdim : 0 < spec.dimension) :
    hasIndex (ensureCreate st spec).1 spec.name = true ∧
    ensureCreate (ensureCreate st spec).1 spec = ((ensureCreate st spec).1, false) ∧
    (ensureCreate st spec).2 = !hasIndex st spec.name := by
  by_cases hex : hasIndex st spec.name
  · refine ⟨by simp [ensureCreate, hex], by simp [ensureCreate, hex], by simp [ensureCreate, hex]⟩
  · have hc := hasIndex_createIndex st spec
    simp at hex
    refine ⟨by simp [ensureCreate, hex, hc], by simp [ensureCreate, hex, hc], by simp [ensureCreate, hex]⟩

/-- Witness for C3 at the concrete spec of main.py (dimension 768). -/
theorem ensureCreate_idempotent_witness :
    0 < (768 : Nat) ∧
    hasIndex (ensureCreate ⟨[]⟩ ⟨"example-index", 768, "euclidean"⟩).1 "example-index" = true :=
  ⟨by decide,
   (ensureCreate_idempotent ⟨[]⟩ ⟨"example-index", 768, "euclidean"⟩ (by decide)).1⟩

/-- C4: the embedding loop of main.py lines 65-76 preserves input length and
order: one embedded record per input record, and the record at every
position keeps the id of the input record at that position. -/
theorem embed_preserves_length_and_order (embedder : String → List Int)
    (records : List Record) :
    (embed embedder records).length = records.length ∧
    ∀ i : Nat, ((embed embedder records)[i]?).map EmbeddedRecord.id =
      (records[i]?).map Record.id := by
  constructor
  · simp [embed]
  · intro i
    rw [embed, List.getElem?_map]
    cases records[i]? <;> simp [embedRecord]

/-- C5, counterexample.  A failing embedder aborts two different batches —
whose offending records have different ids — with the very same error value:
the propagated failure is the embedder error unchanged, so it does not wrap
the offending record id (no EmbeddingError wrapper exists in the code). -/
theorem embed_error_carries_no_id :
    embedE (fun _ => Except.error "boom") [⟨"r1", "A"⟩] = Except.error "boom" ∧
    embedE (fun _ => Except.error "boom") [⟨"r2", "B"⟩] = Except.error "boom" ∧
    ("r1" : String) ≠ "r2" :=
  ⟨rfl, rfl, by decide⟩

/-- C5, amended: if any single embedding call fails, the whole batch fails
with the embedder failure propagated unchanged — it is the error of some
record of the batch, not an EmbeddingError wrapper carrying the record id —
and no record of the batch is written to the store: the namespace content is
exactly what it was (upsert is reached only after the whole embedding loop
succeeds, main.py lines 65-81). -/
theorem embed_failure_aborts_batch (embedder : String → Except String (List Int))
    (records : List Record) (stored : List EmbeddedRecord) (err : String)
    (h : embedE embedder records = Except.error err) :
    runIngest embedder records stored = (Except.error err, stored) ∧
    ∃ r ∈ records, embedder r.text = Except.error err := by
  refine ⟨by simp [runIngest, h], ?_⟩
  induction records with
  | nil => simp [embedE] at h
  | cons r rs ih =>
    by_cases hr : ∃ v, embedder r.text = Except.ok v
    · rcases hr with ⟨v, hv⟩
      by_cases hrs : ∃ tail, embedE embedder rs = Except.ok tail
      · rcases hrs with ⟨tail, htail⟩
        rw [embedE, hv, htail] at h
        exact absurd h (by simp)
      · have htail : embedE embedder rs = Except.error err := by
          cases hrs2 : embedE embedder rs with
          | ok tail => exact absurd ⟨tail, hrs2⟩ hrs
          | error e =>
            rw [embedE, hv, hrs2] at h
            simp at h
            rw [h]
        rcases ih htail with ⟨r2, hr2, he2⟩
        exact ⟨r2, List.mem_cons_of_mem r hr2, he2⟩
    · have he : embedder r.text = Except.error err := by
        cases hre : embedder r.text with
        | ok v => exact absurd ⟨v, hre⟩ hr
        | error e =>
          rw [embedE, hre] at h
          simp at h
          rw [h]
      exact ⟨r, List.mem_cons_self r rs, he⟩

/-- Witness for the amended C5 at a concrete failing embedder. -/
theorem embed_failure_aborts_batch_witness :
    embedE (fun _ => Except.error "boom") [⟨"r1", "A"⟩] = Except.error "boom" ∧
    runIngest (fun _ => Except.error "boom") [⟨"r1", "A"⟩] [] =
      (Except.error "boom", []) :=
  ⟨rfl,
   (embed_failure_aborts_batch (fun _ => Except.error "boom") [⟨"r1", "A"⟩] [] "boom" rfl).1⟩

/-- C6: teardown deletes the named resource and is idempotent.  After the
delete of main.py line 130 the index is absent; deleting again changes
nothing; and deleting an already-absent resource is not an error — the
modelled delete is total and leaves the provider state exactly as it was. -/
theorem deleteIndex_idempotent (st : PCState) (n : String) :
    hasIndex (deleteIndex st n) n = false ∧
    deleteIndex (deleteIndex st n) n = deleteIndex st n ∧
    (hasIndex st n = false → deleteIndex st n = st) := by
  refine ⟨?_, ?_, ?_⟩
  · simp [hasIndex, deleteIndex, List.mem_filter]
  · simp [deleteIndex, List.filter_filter]
  · intro habs
    simp [hasIndex] at habs
    have : st.indexes.filter (fun s => s.name != n) = st.indexes := by
      rw [List.filter_eq_self]
      intro s hs
      simpa using habs s hs
    simp [deleteIndex, this]

/-- Witness for C6: deleting an index that is absent from a concrete state
leaves the state unchanged and reports no error. -/
theorem deleteIndex_idempotent_witness :
    hasIndex ⟨[⟨"other", 1, "euclidean"⟩]⟩ "example-index" = false ∧
    deleteIndex ⟨[⟨"other", 1, "euclidean"⟩]⟩ "example-index" =
      (⟨[⟨"other", 1, "euclidean"⟩]⟩ : PCState) :=
  ⟨by decide,
   (deleteIndex_idempotent ⟨[⟨"other", 1, "euclidean"⟩]⟩ "example-index").2.2 (by decide)⟩

/-- C7: every query result is ordered best match first under the configured
metric.  The index metric is euclidean (main.py line 37), matches are scored
by euclidean distance, and the returned sequence is sorted by increasing
distance score. -/
theorem queryIndex_sorted (stored : List EmbeddedRecord) (qv : List Int)
    (topK : Nat) (iV iM : Bool) :
    List.Sorted scoreLE (queryIndex stored qv topK iV iM) :=
  List.Pairwise.sublist (List.take_sublist topK _)
    (List.sorted_insertionSort scoreLE (stored.map (toMatch qv iV iM)))

/-- C8: a topK larger than the number of records in the namespace is not an
error: the query returns exactly the records available. -/
theorem queryIndex_topK_exceeds (stored : List EmbeddedRecord) (qv : List Int)
    (topK : Nat) (iV iM : Bool) (h : stored.length < topK) :
    (queryIndex stored qv topK iV iM).length = stored.length := by
  simp [queryIndex, List.length_take, List.length_insertionSort]
  omega

/-- Witness for C8: one stored record queried with topK 5 yields exactly one
result. -/
theorem queryIndex_topK_exceeds_witness :
    ([(⟨"v1", [1, 0], [("sentence", "A")]⟩ : EmbeddedRecord)]).length < 5 ∧
    (queryIndex [⟨"v1", [1, 0], [("sentence", "A")]⟩] [0, 0] 5 true true).length =
      ([(⟨"v1", [1, 0], [("sentence", "A")]⟩ : EmbeddedRecord)]).length :=
  ⟨by decide,
   queryIndex_topK_exceeds [⟨"v1", [1, 0], [("sentence", "A")]⟩] [0, 0] 5 true true
     (by decide)⟩

/-- C9: in a whole run of main at most one creation request is issued, and
the readiness wait loop only reads status and sleeps: every operation in its
trace is a describe of the polled index or a sleep, never another create,
write or delete. -/
theorem main_run_frame (st : PCState) (spec : IndexSpec) (ready : Nat → Bool)
    (fuel : Nat) (ns : String) :
    (mainOps st spec ready fuel ns).countP isCreateOp ≤ 1 ∧
    ∀ op ∈ (waitLoop spec.name ready 0 fuel).2,
      op = Op.describe spec.name ∨ op = Op.sleep := by
  refine ⟨?_, waitLoop_ops spec.name ready fuel 0⟩
  have hprov : ((provisionOps st spec ready fuel).2).countP isCreateOp ≤ 1 := by
    simp [provisionOps, List.countP_cons, List.countP_append, isCreateOp,
      waitLoop_no_create]
    by_cases hc : (ensureCreate st spec).2 <;> simp [hc, isCreateOp]
  cases hout : (provisionOps st spec ready fuel).1 with
  | gotReady =>
    simpa [mainOps, hout, List.countP_append, List.countP_cons, isCreateOp]
      using hprov
  | stillWaiting => simpa [mainOps, hout] using hprov

/-- Witness for C9 at a concrete run: the sleep in the wait-loop trace is a
describe-or-sleep operation. -/
theorem main_run_frame_witness :
    Op.sleep ∈ (waitLoop "example-index" (fun _ => false) 0 1).2 ∧
    (Op.sleep = Op.describe "example-index" ∨ Op.sleep = Op.sleep) :=
  ⟨by decide,
   (main_run_frame ⟨[]⟩ ⟨"example-index", 768, "euclidean"⟩ (fun _ => false) 1
       "example-namespace").2 Op.sleep (by decide)⟩

/-- C10: the metadata attached at main.py line 72 is exactly the singleton
mapping of "sentence" to the record original text, and the text round-trips:
ingesting a batch into an empty namespace and querying with metadata
inclusion yields, for every match, some ingested record with the same id
whose metadata is exactly that singleton mapping — the original text,
character for character. -/
theorem metadata_roundtrip (embedder : String → List Int) (records : List Record) :
    ((embed embedder records).map EmbeddedRecord.metadata =
      records.map (fun r => [("sentence", r.text)])) ∧
    ∀ qv topK iV m, m ∈ queryIndex (upsertNS [] (embed embedder records)) qv topK iV true →
      ∃ r ∈ records, m.id = r.id ∧ m.metadata = some [("sentence", r.text)] := by
  constructor
  · simp [embed, embedRecord]
  · intro qv topK iV m hm
    rcases mem_queryIndex _ qv topK iV true m hm with ⟨er, her, hmatch⟩
    rcases mem_upsertNS _ [] er her with h | h
    · simp at h
    · rcases List.mem_map.1 h with ⟨r, hr, hrec⟩
      refine ⟨r, hr, ?_, ?_⟩
      · rw [hmatch, ← hrec]
        simp [toMatch, embedRecord]
      · rw [hmatch, ← hrec]
        simp [toMatch, embedRecord]

/-- Witness for C10 at a concrete one-record ingest and query. -/
theorem metadata_roundtrip_witness :
    (⟨"v1", 0, some [1, 0], some [("sentence", "A")]⟩ : QueryMatch) ∈
      queryIndex (upsertNS [] (embed (fun _ => [1, 0]) [⟨"v1", "A"⟩])) [1, 0] 1 true true ∧
    ∃ r ∈ [(⟨"v1", "A"⟩ : Record)],
      (⟨"v1", 0, some [1, 0], some [("sentence", "A")]⟩ : QueryMatch).id = r.id ∧
      (⟨"v1", 0, some [1, 0], some [("sentence", "A")]⟩ : QueryMatch).metadata =
        some [("sentence", r.text)] :=
  ⟨by decide,
   (metadata_roundtrip (fun _ => [1, 0]) [⟨"v1", "A"⟩]).2 [1, 0] 1 true
     ⟨"v1", 0, some [1, 0], some [("sentence", "A")]⟩ (by decide)⟩

end VecDB
